import Mathlib

/-!
Verification of the AI-powered air-quality prediction system
(`api_server.py`, `dashboard.py`).

The Python code is shallowly embedded: pollutant concentrations and AQI
scores are rationals (the code only compares and copies them, no
float-specific behaviour matters to the claims), the HTTP fetch is
represented by its outcome (success with parsed hourly data, or one of the
failure modes caught by the `except` clause), and the FastAPI handlers are
pure functions from the global model reference and their inputs to either a
response payload or the `HTTPException` they raise.
-/

/-- A pollutant reading as produced by `fetch_live_data` or assembled from
the `/predict/custom` query parameters: the seven named quantities. -/
structure PollutantReading where
  pm2_5 : ℚ
  pm10 : ℚ
  no2 : ℚ
  so2 : ℚ
  co : ℚ
  o3 : ℚ
  nh3 : ℚ
deriving DecidableEq, Repr

/-- The `hourly` object of a successfully parsed provider response:
one time series per requested pollutant (`api_server.py` line 33). -/
structure HourlyData where
  pm2_5 : List ℚ
  pm10 : List ℚ
  nitrogen_dioxide : List ℚ
  sulphur_dioxide : List ℚ
  carbon_monoxide : List ℚ
  ozone : List ℚ
deriving DecidableEq, Repr

/-- The failure modes of the live fetch that the `except Exception` clause
in `fetch_live_data` catches: request timeout, `raise_for_status` on a
non-2xx reply, and a malformed or missing body (JSON decode error or a
missing `hourly` key). -/
inductive FetchFailure
  | timeout
  | httpStatus (code : ℕ)
  | malformedBody
deriving DecidableEq, Repr

/-- The outcome of the HTTP fetch inside `fetch_live_data`. -/
inductive FetchOutcome
  | success (hourly : HourlyData)
  | failure (e : FetchFailure)
deriving DecidableEq, Repr

/-- Python `xs[-1] if xs else 0` (`api_server.py` lines 42-47). -/
def lastOrZero (xs : List ℚ) : ℚ :=
  (xs.getLast?).getD 0

/-- The fixed fallback reading returned by `fetch_live_data` on any
failure (`api_server.py` lines 57-60). -/
def fallbackReading : PollutantReading :=
  { pm2_5 := 25, pm10 := 45, no2 := 12, so2 := 5, co := 1/2, o3 := 45, nh3 := 0 }

/-- `fetch_live_data` (`api_server.py` lines 30-60), as a function of the
fetch outcome: on success it takes the last element of each hourly series
(0 when the series is empty) and sets `nh3` to 0.0; on any caught failure
it returns the fixed fallback reading.  It is total: no exception reaches
the caller. -/
def fetch_live_data : FetchOutcome → PollutantReading
  | .success hourly =>
    { pm2_5 := lastOrZero hourly.pm2_5
      pm10 := lastOrZero hourly.pm10
      no2 := lastOrZero hourly.nitrogen_dioxide
      so2 := lastOrZero hourly.sulphur_dioxide
      co := lastOrZero hourly.carbon_monoxide
      o3 := lastOrZero hourly.ozone
      nh3 := 0 }
  | .failure _ => fallbackReading

/-- `get_aqi_status` (`api_server.py` lines 62-75). -/
def get_aqi_status (aqi : ℚ) : String :=
  if aqi ≤ 50 then "Good 😊"
  else if aqi ≤ 100 then "Moderate 😐"
  else if aqi ≤ 150 then "Unhealthy for Sensitive Groups 😷"
  else if aqi ≤ 200 then "Unhealthy 😞"
  else if aqi ≤ 300 then "Very Unhealthy 😨"
  else "Hazardous ☠️"

/-- The loaded model object: an opaque regression function over the
8-element feature row, together with its Python truthiness (the `/health`
handler tests `if model`, which asks the loaded object for its truth
value, while `model_loaded` tests `model is not None`). -/
structure ModelObj where
  predictFn : List ℚ → ℚ
  truthy : Bool

/-- Python truthiness of the global `model` reference: `None` is falsy,
an object reports its own truth value. -/
def pyTruthy : Option ModelObj → Bool
  | none => false
  | some m => m.truthy

/-- `round(x, 2)`: the score rounded to 2 decimal places
(`api_server.py` lines 122 and 148). -/
def round2 (q : ℚ) : ℚ :=
  (round (q * 100) : ℚ) / 100

/-- The `HTTPException` raised by the prediction handlers. -/
structure HTTPError where
  status_code : ℕ
  detail : String
deriving DecidableEq, Repr

/-- The JSON payload of a successful `GET /predict` reply
(`api_server.py` lines 121-127). -/
structure PredictResponse where
  AQI_Predicted : ℚ
  status : String
  pollutants : PollutantReading
  location : String
  timestamp : String
deriving DecidableEq, Repr

/-- The `input_parameters` object echoed by `GET /predict/custom`
(`api_server.py` lines 150-153). -/
structure InputParameters where
  PM2_5 : ℚ
  PM10 : ℚ
  NO2 : ℚ
  SO2 : ℚ
  CO : ℚ
  O3 : ℚ
  NH3 : ℚ
deriving DecidableEq, Repr

/-- The JSON payload of a successful `GET /predict/custom` reply
(`api_server.py` lines 147-154). -/
structure CustomResponse where
  AQI_Predicted : ℚ
  status : String
  input_parameters : InputParameters
deriving DecidableEq, Repr

/-- The feature row `X` built by the live path `predict`
(`api_server.py` lines 107-116): `[PM2.5, PM10, NO=0, NO2, NH3, CO, SO2, O3]`. -/
def buildLiveVector (data : PollutantReading) : List ℚ :=
  [data.pm2_5, data.pm10, 0, data.no2, data.nh3, data.co, data.so2, data.o3]

/-- The feature row `X` built by the custom path `predict_custom`
(`api_server.py` lines 141-143): `[pm25, 0.0, no2, nh3, co, so2, o3, pm10]`. -/
def buildCustomVector (pm25 pm10 no2 so2 co o3 nh3 : ℚ) : List ℚ :=
  [pm25, 0, no2, nh3, co, so2, o3, pm10]

/-- The `GET /predict` handler (`api_server.py` lines 95-130): with the
model absent it raises a 500 `HTTPException`; otherwise it fetches live
data, builds the feature row, invokes the model, and assembles the reply
with the rounded score and the status of the unrounded score. -/
def predict (model : Option ModelObj) (fetchResult : FetchOutcome) :
    Except HTTPError PredictResponse :=
  match model with
  | none => .error { status_code := 500, detail := "Model not loaded" }
  | some m =>
    let data := fetch_live_data fetchResult
    let X := buildLiveVector data
    let prediction := m.predictFn X
    .ok { AQI_Predicted := round2 prediction
          status := get_aqi_status prediction
          pollutants := data
          location := "Delhi, India"
          timestamp := "Live data" }

/-- The `GET /predict/custom` handler (`api_server.py` lines 132-157):
with the model absent it raises a 500 `HTTPException`; otherwise it builds
the (differently ordered) feature row from the query parameters, invokes
the model, and assembles the reply. -/
def predict_custom (model : Option ModelObj)
    (pm25 pm10 no2 so2 co o3 nh3 : ℚ) :
    Except HTTPError CustomResponse :=
  match model with
  | none => .error { status_code := 500, detail := "Model not loaded" }
  | some m =>
    let X := buildCustomVector pm25 pm10 no2 so2 co o3 nh3
    let prediction := m.predictFn X
    .ok { AQI_Predicted := round2 prediction
          status := get_aqi_status prediction
          input_parameters :=
            { PM2_5 := pm25, PM10 := pm10, NO2 := no2
              SO2 := so2, CO := co, O3 := o3, NH3 := nh3 } }

/-- The `GET /health` reply (`api_server.py` lines 88-93). -/
structure HealthResponse where
  status : String
  model_loaded : Bool
deriving DecidableEq, Repr

/-- The `GET /health` handler (`api_server.py` lines 88-93): `status` is
computed from the truthiness of `model`, `model_loaded` from
`model is not None`. -/
def health_check (model : Option ModelObj) : HealthResponse :=
  { status := if pyTruthy model then "healthy" else "model_not_loaded"
    model_loaded := model.isSome }

/-- One entry of the dashboard's AQI history
(`dashboard.py` lines 148-151). -/
structure HistoryEntry where
  time : String
  aqi : ℚ
deriving DecidableEq, Repr

/-- One refresh-cycle update of `st.session_state.aqi_history`
(`dashboard.py` lines 147-155): append the new entry, then `pop(0)` the
oldest entry when the length exceeds 20. -/
def historyAppendEvict (history : List HistoryEntry) (entry : HistoryEntry) :
    List HistoryEntry :=
  let h := history ++ [entry]
  if h.length > 20 then h.drop 1 else h

/-- Python `xs[-1]` on a non-empty list is its last element. -/
lemma lastOrZero_concat (xs : List ℚ) (a : ℚ) : lastOrZero (xs ++ [a]) = a := by
  simp [lastOrZero]

/-- Python `xs[-1] if xs else 0` on an empty list is 0. -/
lemma lastOrZero_nil : lastOrZero [] = 0 := rfl

/-- Claim C2: `get_aqi_status` maps every score to the band whose inclusive
upper threshold it does not exceed: `≤ 50` Good, `≤ 100` Moderate, `≤ 150`
Unhealthy for Sensitive Groups, `≤ 200` Unhealthy, `≤ 300` Very Unhealthy,
`> 300` Hazardous, so each boundary value belongs to the lower band. -/
theorem aqi_classifier_bands (q : ℚ) :
    (q ≤ 50 → get_aqi_status q = "Good 😊") ∧
    (50 < q → q ≤ 100 → get_aqi_status q = "Moderate 😐") ∧
    (100 < q → q ≤ 150 → get_aqi_status q = "Unhealthy for Sensitive Groups 😷") ∧
    (150 < q → q ≤ 200 → get_aqi_status q = "Unhealthy 😞") ∧
    (200 < q → q ≤ 300 → get_aqi_status q = "Very Unhealthy 😨") ∧
    (300 < q → get_aqi_status q = "Hazardous ☠️") := by
  refine ⟨fun h => ?_, fun h1 h2 => ?_, fun h1 h2 => ?_,
    fun h1 h2 => ?_, fun h1 h2 => ?_, fun h1 => ?_⟩ <;>
    simp only [get_aqi_status] <;> split_ifs <;>
    first | rfl | (exfalso; linarith)

/-- Claim C2, witness: the boundary values 50, 100 and 300 land in the
lower band. -/
theorem aqi_classifier_bands_witness :
    get_aqi_status 50 = "Good 😊" ∧ get_aqi_status 100 = "Moderate 😐" ∧
    get_aqi_status 300 = "Very Unhealthy 😨" :=
  ⟨(aqi_classifier_bands 50).1 (by norm_num),
   (aqi_classifier_bands 100).2.1 (by norm_num) (by norm_num),
   (aqi_classifier_bands 300).2.2.2.2.1 (by norm_num) (by norm_num)⟩

/-- Claim C9: `get_aqi_status` is total with no failure branch: every
score, negative or arbitrarily large, yields one of exactly six strings,
and every negative score falls into the `≤ 50` branch (Good). -/
theorem aqi_classifier_total (q : ℚ) :
    (get_aqi_status q = "Good 😊" ∨ get_aqi_status q = "Moderate 😐" ∨
     get_aqi_status q = "Unhealthy for Sensitive Groups 😷" ∨
     get_aqi_status q = "Unhealthy 😞" ∨
     get_aqi_status q = "Very Unhealthy 😨" ∨
     get_aqi_status q = "Hazardous ☠️") ∧
    (q < 0 → get_aqi_status q = "Good 😊") := by
  constructor
  · simp only [get_aqi_status]; split_ifs <;> tauto
  · intro h; simp only [get_aqi_status]; rw [if_pos (by linarith)]

/-- Claim C9, witness: the negative score -7 is classified Good. -/
theorem aqi_classifier_total_witness : get_aqi_status (-7) = "Good 😊" :=
  (aqi_classifier_total (-7)).2 (by norm_num)

/-- Claim C3: on every failure of the live fetch (timeout, non-2xx status,
malformed or missing body) `fetch_live_data` returns the fixed fallback
reading and raises nothing to its caller (it is a total function of the
fetch outcome). -/
theorem fetch_fallback_on_failure (e : FetchFailure) :
    fetch_live_data (.failure e) =
      { pm2_5 := 25, pm10 := 45, no2 := 12, so2 := 5,
        co := 1/2, o3 := 45, nh3 := 0 } := rfl

/-- Claim C7: on a successful provider response `fetch_live_data` selects
the last hourly value of each series, substitutes 0 when a series is
empty, and always sets `nh3` to 0. -/
theorem fetch_selects_latest (hourly : HourlyData) (xs : List ℚ) (a : ℚ) :
    ((fetch_live_data (.success hourly)).nh3 = 0) ∧
    (hourly.pm2_5 = xs ++ [a] → (fetch_live_data (.success hourly)).pm2_5 = a) ∧
    (hourly.pm2_5 = [] → (fetch_live_data (.success hourly)).pm2_5 = 0) ∧
    (hourly.pm10 = xs ++ [a] → (fetch_live_data (.success hourly)).pm10 = a) ∧
    (hourly.pm10 = [] → (fetch_live_data (.success hourly)).pm10 = 0) ∧
    (hourly.nitrogen_dioxide = xs ++ [a] →
      (fetch_live_data (.success hourly)).no2 = a) ∧
    (hourly.nitrogen_dioxide = [] → (fetch_live_data (.success hourly)).no2 = 0) ∧
    (hourly.sulphur_dioxide = xs ++ [a] →
      (fetch_live_data (.success hourly)).so2 = a) ∧
    (hourly.sulphur_dioxide = [] → (fetch_live_data (.success hourly)).so2 = 0) ∧
    (hourly.carbon_monoxide = xs ++ [a] →
      (fetch_live_data (.success hourly)).co = a) ∧
    (hourly.carbon_monoxide = [] → (fetch_live_data (.success hourly)).co = 0) ∧
    (hourly.ozone = xs ++ [a] → (fetch_live_data (.success hourly)).o3 = a) ∧
    (hourly.ozone = [] → (fetch_live_data (.success hourly)).o3 = 0) := by
  refine ⟨rfl, ?_, ?_, ?_, ?_, ?_, ?_, ?_, ?_, ?_, ?_, ?_, ?_⟩ <;>
    intro h <;> simp [fetch_live_data, h, lastOrZero_concat, lastOrZero_nil]

/-- Claim C7, witness: on a concrete response the last values are taken,
the empty ozone series becomes 0 and `nh3` is 0. -/
theorem fetch_selects_latest_witness :
    ((fetch_live_data (.success ⟨[1, 2], [3], [4], [5], [6], []⟩)).pm2_5 = 2) ∧
    ((fetch_live_data (.success ⟨[1, 2], [3], [4], [5], [6], []⟩)).o3 = 0) ∧
    ((fetch_live_data (.success ⟨[1, 2], [3], [4], [5], [6], []⟩)).nh3 = 0) :=
  ⟨(fetch_selects_latest ⟨[1, 2], [3], [4], [5], [6], []⟩ [1] 2).2.1 rfl,
   (fetch_selects_latest ⟨[1, 2], [3], [4], [5], [6], []⟩ [1] 2).2.2.2.2.2.2.2.2.2.2.2.2 rfl,
   (fetch_selects_latest ⟨[1, 2], [3], [4], [5], [6], []⟩ [1] 2).1⟩

/-- Claim C5: with the model reference absent, both `predict` and
`predict_custom` return the 500 "Model not loaded" error — never a
numeric score and never a crash (both are total functions). -/
theorem model_absent_errors (fetchResult : FetchOutcome)
    (pm25 pm10 no2 so2 co o3 nh3 : ℚ) :
    predict none fetchResult =
      .error { status_code := 500, detail := "Model not loaded" } ∧
    predict_custom none pm25 pm10 no2 so2 co o3 nh3 =
      .error { status_code := 500, detail := "Model not loaded" } :=
  ⟨rfl, rfl⟩

/-- Claim C8: `predict_custom` is deterministic — for a fixed model, two
calls with identical parameter values return identical results (same
`AQI_Predicted`, `status` and `input_parameters`). -/
theorem predict_custom_deterministic (m : Option ModelObj)
    (pm25 pm10 no2 so2 co o3 nh3 pm25b pm10b no2b so2b cob o3b nh3b : ℚ)
    (h1 : pm25 = pm25b) (h2 : pm10 = pm10b) (h3 : no2 = no2b)
    (h4 : so2 = so2b) (h5 : co = cob) (h6 : o3 = o3b) (h7 : nh3 = nh3b) :
    predict_custom m pm25 pm10 no2 so2 co o3 nh3 =
      predict_custom m pm25b pm10b no2b so2b cob o3b nh3b := by
  subst h1 h2 h3 h4 h5 h6 h7; rfl

/-- Claim C8, witness: two calls with the literal parameters of the
README example agree. -/
theorem predict_custom_deterministic_witness :
    predict_custom none 10 20 15 5 (1/2) 40 0 =
      predict_custom none 10 20 15 5 (1/2) 40 0 :=
  predict_custom_deterministic none 10 20 15 5 (1/2) 40 0 10 20 15 5 (1/2) 40 0
    rfl rfl rfl rfl rfl rfl rfl

/-- A model that returns the feature at index 1; it distinguishes the two
feature orders of the prediction paths. -/
def indexOneModel : ModelObj :=
  { predictFn := fun X => X.getD 1 0, truthy := true }

/-- A provider response whose latest reading is
`pm2_5 = 10, pm10 = 20, no2 = 15, so2 = 5, co = 0.5, o3 = 40`. -/
def hourlyScenario : HourlyData :=
  { pm2_5 := [10], pm10 := [20], nitrogen_dioxide := [15]
    sulphur_dioxide := [5], carbon_monoxide := [1/2], ozone := [40] }

/-- The pollutant reading of the §8 scenario:
`pm2_5 = 10, pm10 = 20, no2 = 15, so2 = 5, co = 0.5, o3 = 40, nh3 = 0`. -/
def readingScenario : PollutantReading :=
  { pm2_5 := 10, pm10 := 20, no2 := 15, so2 := 5, co := 1/2, o3 := 40, nh3 := 0 }

/-- Claim C1: the claim that both prediction paths build the same feature
vector is false on the code.  For the reading
`pm2_5=10, pm10=20, no2=15, so2=5, co=0.5, o3=40, nh3=0` the live path
builds `[10, 20, 0, 15, 0, 0.5, 5, 40]` while the custom path builds
`[10, 0, 15, 0, 0.5, 5, 40, 20]`, and with a model reading feature index 1
the two endpoints return different AQI scores (20 versus 0). -/
theorem feature_vector_order_mismatch :
    buildLiveVector readingScenario = [10, 20, 0, 15, 0, 1/2, 5, 40] ∧
    buildCustomVector 10 20 15 5 (1/2) 40 0 = [10, 0, 15, 0, 1/2, 5, 40, 20] ∧
    buildLiveVector readingScenario ≠ buildCustomVector 10 20 15 5 (1/2) 40 0 ∧
    (predict (some indexOneModel) (.success hourlyScenario)).toOption.map
        PredictResponse.AQI_Predicted = some 20 ∧
    (predict_custom (some indexOneModel) 10 20 15 5 (1/2) 40 0).toOption.map
        CustomResponse.AQI_Predicted = some 0 := by
  refine ⟨rfl, rfl, by decide, ?_, ?_⟩ <;>
    simp [predict, predict_custom, hourlyScenario, indexOneModel, fetch_live_data,
      buildLiveVector, buildCustomVector, lastOrZero, Except.toOption] <;>
    norm_num [round2, round_eq]

/-- Claim C6: for the reading
`pm2_5=10, pm10=20, no2=15, so2=5, co=0.5, o3=40, nh3=0` the live path
builds exactly the feature vector `[10, 20, 0, 15, 0, 0.5, 5, 40]`,
returns the model output rounded to 2 decimal places as `AQI_Predicted`,
and derives `status` purely from the unrounded score via the fixed
thresholds — for every model. -/
theorem predict_scenario (m : ModelObj) :
    fetch_live_data (.success hourlyScenario) = readingScenario ∧
    buildLiveVector readingScenario = [10, 20, 0, 15, 0, 1/2, 5, 40] ∧
    predict (some m) (.success hourlyScenario) =
      .ok { AQI_Predicted := round2 (m.predictFn [10, 20, 0, 15, 0, 1/2, 5, 40])
            status := get_aqi_status (m.predictFn [10, 20, 0, 15, 0, 1/2, 5, 40])
            pollutants := readingScenario
            location := "Delhi, India"
            timestamp := "Live data" } :=
  ⟨rfl, rfl, rfl⟩

/-- The buffer update applied to the whole arrival sequence keeps exactly
the `capacity = 20` most recent entries: folding `historyAppendEvict` over
any arrival list drops precisely the over-capacity prefix. -/
lemma foldl_historyAppendEvict (es : List HistoryEntry) :
    ∀ b : List HistoryEntry, b.length ≤ 20 →
      List.foldl historyAppendEvict b es = (b ++ es).drop ((b ++ es).length - 20) := by
  induction es with
  | nil =>
    intro b hb
    simp only [List.foldl_nil, List.append_nil]
    rw [Nat.sub_eq_zero_of_le hb, List.drop_zero]
  | cons e es ih =>
    intro b hb
    rw [List.foldl_cons]
    by_cases hlen : (b ++ [e]).length > 20
    · have hb20 : b.length = 20 := by
        simp only [List.length_append, List.length_singleton] at hlen; omega
      have hstep : historyAppendEvict b e = (b ++ [e]).drop 1 := by
        simp only [historyAppendEvict, if_pos hlen]
      rw [hstep]
      have hle : ((b ++ [e]).drop 1).length ≤ 20 := by
        simp only [List.length_drop, List.length_append, List.length_singleton]; omega
      rw [ih _ hle]
      have h1 : ((b ++ [e]) ++ es).drop 1 = ((b ++ [e]).drop 1) ++ es :=
        List.drop_append_of_le_length (by simp)
      rw [← h1, List.drop_drop, List.append_assoc, List.singleton_append]
      congr 1
      simp only [List.length_drop, List.length_append, List.length_singleton,
        List.length_cons]
      omega
    · have hstep : historyAppendEvict b e = b ++ [e] := by
        simp only [historyAppendEvict, if_neg hlen]
      have hle : (b ++ [e]).length ≤ 20 := by omega
      rw [hstep, ih _ hle, List.append_assoc, List.singleton_append]

/-- Claim C4: starting from an empty AQI history and appending 25 entries
sequentially (each append followed by the over-capacity eviction), the
buffer holds exactly the most recent 20 entries in arrival order (the
oldest 5 were evicted first), and its size never exceeds 20 after any
step. -/
theorem history_buffer_bounded_fifo (es : List HistoryEntry)
    (h : es.length = 25) :
    List.foldl historyAppendEvict [] es = es.drop 5 ∧
    ∀ n : ℕ, (List.foldl historyAppendEvict [] (es.take n)).length ≤ 20 := by
  constructor
  · have h0 := foldl_historyAppendEvict es [] (by simp)
    simpa [h] using h0
  · intro n
    have h0 := foldl_historyAppendEvict (es.take n) [] (by simp)
    rw [h0]
    simp only [List.nil_append, List.length_drop]
    omega

/-- A concrete arrival sequence of 25 history entries. -/
def arrivalsDemo : List HistoryEntry :=
  (List.range 25).map (fun i => { time := "t", aqi := (i : ℚ) })

/-- Claim C4, witness: the 25 concrete arrivals leave exactly the last 20
entries, and the buffer is within capacity after 23 steps. -/
theorem history_buffer_bounded_fifo_witness :
    arrivalsDemo.length = 25 ∧
    List.foldl historyAppendEvict [] arrivalsDemo = arrivalsDemo.drop 5 ∧
    (List.foldl historyAppendEvict [] (arrivalsDemo.take 23)).length ≤ 20 :=
  ⟨by rfl, (history_buffer_bounded_fifo arrivalsDemo (by rfl)).1,
   (history_buffer_bounded_fifo arrivalsDemo (by rfl)).2 23⟩

/-- A non-`None` model object that is falsy in the Python sense (for
example an ensemble whose estimator list is empty reports length 0). -/
def falsyModel : ModelObj := { predictFn := fun _ => 0, truthy := false }

/-- A truthy model object, as every fitted regression model is. -/
def truthyModel : ModelObj := { predictFn := fun _ => 0, truthy := true }

/-- Claim C10, counterexample: for a non-`None` but falsy model object the
`/health` reply is inconsistent — `model_loaded` is true (the reference is
not `None`) while `status` is not "healthy" (the truthiness test fails). -/
theorem health_check_inconsistency :
    (health_check (some falsyModel)).model_loaded = true ∧
    (health_check (some falsyModel)).status ≠ "healthy" := by
  exact ⟨rfl, by decide⟩

/-- Claim C10 (amended): whenever every loaded model object is truthy —
which holds for any fitted ensemble model — the `/health` reply is
internally consistent: `status = "healthy"` exactly when
`model_loaded = true`. -/
theorem health_check_consistent_of_truthy (model : Option ModelObj)
    (h : ∀ m, model = some m → m.truthy = true) :
    ((health_check model).status = "healthy" ↔
      (health_check model).model_loaded = true) := by
  cases model with
  | none => decide
  | some m =>
    have ht := h m rfl
    simp [health_check, pyTruthy, ht]

/-- Claim C10, witness: with a truthy loaded model the reply is
consistent. -/
theorem health_check_consistent_witness :
    (health_check (some truthyModel)).status = "healthy" ↔
      (health_check (some truthyModel)).model_loaded = true :=
  health_check_consistent_of_truthy (some truthyModel)
    (fun m hm => by cases hm; rfl)
